import Mathlib

/-!
# Biotech Options Rater — verification development

A shallow embedding of the rating engine, comparator and event store of the
biotech-options-rater repository, over exact rationals (`ℚ`) in place of
Python floats.  Python dictionaries with string keys are embedded as
association lists (`List (String × ℚ)`), Python `Optional` as `Option`,
raised exceptions as `Except`, and the JSON backing files of the event
store as `Option (List _Record)` (with `none` for a missing file).
Python's `round(x, n)` (round-half-to-even at the n-th decimal) is embedded
exactly as `pyRound`.
-/

namespace BOR

/-- Python `round` to an integer: nearest integer, ties to even. -/
def pyRoundInt (x : ℚ) : ℤ :=
  let f := ⌊x⌋
  let r := x - f
  if r < 1/2 then f
  else if 1/2 < r then f + 1
  else if f % 2 = 0 then f else f + 1

/-- Python `round(x, n)`: round-half-to-even at the n-th decimal place. -/
def pyRound (n : ℕ) (x : ℚ) : ℚ := (pyRoundInt (x * 10 ^ n) : ℚ) / 10 ^ n

/-- Calendar date (embeds Python `datetime.date`; `isoformat` /
`fromisoformat` are mutually inverse, so the serialized form is identified
with the date itself). -/
structure Date where
  year  : ℤ
  month : ℕ
  day   : ℕ
deriving DecidableEq

-- ---------------------------------------------------------------------------
-- models/event.py
-- ---------------------------------------------------------------------------

/-- `EventType` enum from models/event.py. -/
inductive EventType
  | fda_pdufa | fda_adcom | clinical_readout | earnings | conference_pres
  | partnership | sec_filing | macro_release | competitor_event | other
deriving DecidableEq

/-- The `.value` string of each `EventType` member. -/
def EventType.value : EventType → String
  | .fda_pdufa => "fda_pdufa"
  | .fda_adcom => "fda_adcom"
  | .clinical_readout => "clinical_readout"
  | .earnings => "earnings"
  | .conference_pres => "conference_pres"
  | .partnership => "partnership"
  | .sec_filing => "sec_filing"
  | .macro_release => "macro_release"
  | .competitor_event => "competitor_event"
  | .other => "other"

/-- `EventOutcome` enum from models/event.py. -/
inductive EventOutcome
  | pending | positive | negative | mixed | withdrawn
deriving DecidableEq

/-- `SentimentTag` enum from models/event.py. -/
inductive SentimentTag
  | strong_buy | buy | neutral | sell | strong_sell
deriving DecidableEq

/-- The `.value` string of each `SentimentTag` member. -/
def SentimentTag.value : SentimentTag → String
  | .strong_buy => "strong_buy"
  | .buy => "buy"
  | .neutral => "neutral"
  | .sell => "sell"
  | .strong_sell => "strong_sell"

/-- `MarketContext` dataclass from models/event.py. -/
structure MarketContext where
  spy_5d_return : Option ℚ := none
  xbi_5d_return : Option ℚ := none
  vix_level     : Option ℚ := none
  sector_trend  : Option String := none
  notes         : Option String := none
deriving DecidableEq

/-- `BiotechEvent` dataclass from models/event.py. -/
structure BiotechEvent where
  ticker           : String
  company_name     : String
  event_type       : EventType
  event_date       : Date
  description      : String
  sentiment        : SentimentTag := .neutral
  analyst_notes    : String := ""
  pipeline_stage   : Option String := none
  indication       : Option String := none
  primary_endpoint : Option String := none
  competing_drugs  : List String := []
  market_context   : Option MarketContext := none
  outcome          : EventOutcome := .pending
  actual_move_pct  : Option ℚ := none
  spy_move_pct     : Option ℚ := none
  xbi_move_pct     : Option ℚ := none
  iv_crush_pct     : Option ℚ := none
  outcome_notes    : String := ""
  event_id         : Option String := none
  tags             : List String := []
deriving DecidableEq

/-- `BiotechEvent.relative_move`: stock move minus SPY move, `None` if either
operand is missing. -/
def BiotechEvent.relative_move (e : BiotechEvent) : Option ℚ :=
  match e.actual_move_pct, e.spy_move_pct with
  | some a, some s => some (pyRound 4 (a - s))
  | _, _ => none

/-- `BiotechEvent.xbi_relative_move`: stock move minus XBI move, `None` if
either operand is missing. -/
def BiotechEvent.xbi_relative_move (e : BiotechEvent) : Option ℚ :=
  match e.actual_move_pct, e.xbi_move_pct with
  | some a, some x => some (pyRound 4 (a - x))
  | _, _ => none

-- ---------------------------------------------------------------------------
-- models/rating.py
-- ---------------------------------------------------------------------------

/-- `OptionsStrategy` enum from models/rating.py. -/
inductive OptionsStrategy
  | long_call | long_put | long_straddle | long_strangle | bull_call_spread
  | bear_put_spread | iron_condor | cash_secured_put | covered_call
  | calendar_spread | custom
deriving DecidableEq

/-- `RatingGrade` enum from models/rating.py. -/
inductive RatingGrade
  | A_PLUS | A | B_PLUS | B | C | D | F
deriving DecidableEq

/-- `score_to_grade` from models/rating.py: map 0-100 composite score to
letter grade. -/
def score_to_grade (score : ℚ) : RatingGrade :=
  if 90 ≤ score then .A_PLUS
  else if 80 ≤ score then .A
  else if 70 ≤ score then .B_PLUS
  else if 60 ≤ score then .B
  else if 50 ≤ score then .C
  else if 30 ≤ score then .D
  else .F

/-- A Python `dict` of string keys and float values, as an association list
(a dict has no duplicate keys; lookups take the first matching entry). -/
abbrev WeightDict := List (String × ℚ)

/-- Python `d.get(k, dflt)` on a string-keyed dict. -/
def dictGet (d : WeightDict) (k : String) (dflt : ℚ) : ℚ :=
  match d.find? (fun p => decide (p.1 = k)) with
  | some p => p.2
  | none => dflt

/-- `ScoreBreakdown` dataclass from models/rating.py: the seven 0-100
sub-scores. -/
structure ScoreBreakdown where
  catalyst_quality    : ℚ := 0
  sentiment_alignment : ℚ := 0
  market_context      : ℚ := 0
  iv_environment      : ℚ := 0
  historical_accuracy : ℚ := 0
  competitive_moat    : ℚ := 0
  risk_reward         : ℚ := 0
deriving DecidableEq

/-- The `default_weights` dict of `ScoreBreakdown.weighted_total`. -/
def default_weights : WeightDict :=
  [("catalyst_quality",    25/100),
   ("sentiment_alignment", 15/100),
   ("market_context",      15/100),
   ("iv_environment",      15/100),
   ("historical_accuracy", 10/100),
   ("competitive_moat",    10/100),
   ("risk_reward",         10/100)]

/-- `ScoreBreakdown.weighted_total` from models/rating.py.  The Python body
is `w = weights or default_weights`, so both `None` and an empty dict fall
back to the defaults; each weight is read with `w.get(key, 0)`; the dot
product is clamped to [0,100] and rounded to 2 decimals. -/
def ScoreBreakdown.weighted_total (self : ScoreBreakdown)
    (weights : Option WeightDict) : ℚ :=
  let w := match weights with
    | some d => if d.isEmpty then default_weights else d
    | none => default_weights
  let total :=
    self.catalyst_quality    * dictGet w "catalyst_quality" 0 +
    self.sentiment_alignment * dictGet w "sentiment_alignment" 0 +
    self.market_context      * dictGet w "market_context" 0 +
    self.iv_environment      * dictGet w "iv_environment" 0 +
    self.historical_accuracy * dictGet w "historical_accuracy" 0 +
    self.competitive_moat    * dictGet w "competitive_moat" 0 +
    self.risk_reward         * dictGet w "risk_reward" 0
  pyRound 2 (min (max total 0) 100)

/-- `OptionsRating` dataclass from models/rating.py (raw field record; the
dataclass constructor additionally runs `__post_init__`, embedded below as
`OptionsRating.post_init`). -/
structure OptionsRating where
  event_id             : String
  ticker               : String
  rating_date          : Date
  recommended_strategy : OptionsStrategy
  score_breakdown      : ScoreBreakdown
  composite_score      : ℚ := 0
  grade                : RatingGrade := .F
  confidence_pct       : ℚ := 0
  target_expiry_days   : Option ℤ := none
  suggested_delta      : Option ℚ := none
  max_risk_pct_port    : Option ℚ := none
  notes                : String := ""
  analyst_flags        : List String := []
deriving DecidableEq

/-- `OptionsRating.__post_init__`: unconditionally recompute
`composite_score` (default weights) and `grade` from the breakdown.  The
dataclass constructor is the composition of the raw record constructor with
this function. -/
def OptionsRating.post_init (r : OptionsRating) : OptionsRating :=
  let c := r.score_breakdown.weighted_total none
  { r with composite_score := c, grade := score_to_grade c }

/-- `OptionsRating.refresh_score`: recompute `composite_score` and `grade`
under the given weight override. -/
def OptionsRating.refresh_score (r : OptionsRating)
    (weights : Option WeightDict) : OptionsRating :=
  let c := r.score_breakdown.weighted_total weights
  { r with composite_score := c, grade := score_to_grade c }

-- ---------------------------------------------------------------------------
-- collectors/catalyst_tracker.py — sub-score tables and resolution
-- ---------------------------------------------------------------------------

/-- `CATALYST_PRIORITY` dict from collectors/catalyst_tracker.py (all ten
event types present; the Python read `CATALYST_PRIORITY.get(t, 25)` is total
over the enum). -/
def CATALYST_PRIORITY : EventType → ℚ
  | .fda_pdufa => 95
  | .fda_adcom => 85
  | .clinical_readout => 80
  | .partnership => 55
  | .earnings => 50
  | .conference_pres => 30
  | .competitor_event => 40
  | .sec_filing => 20
  | .macro_release => 35
  | .other => 25

/-- `PIPELINE_STAGE_WEIGHT` dict from collectors/catalyst_tracker.py. -/
def PIPELINE_STAGE_WEIGHT : WeightDict :=
  [("Phase 1",     45/100),
   ("Phase 1/2",   50/100),
   ("Phase 2",     65/100),
   ("Phase 2/3",   75/100),
   ("Phase 3",     90/100),
   ("NDA filed",   92/100),
   ("BLA filed",   92/100),
   ("PDUFA date",  95/100),
   ("Approved",    1),
   ("Marketed",    1),
   ("Preclinical", 30/100)]

/-- The three "binary" event types used throughout the scorer. -/
def binary_event_types : List EventType :=
  [.fda_pdufa, .fda_adcom, .clinical_readout]

/-- `catalyst_quality_score` from collectors/catalyst_tracker.py.
Python truthiness: `if event.pipeline_stage and ...` is false for both
`None` and the empty string. -/
def catalyst_quality_score (event : BiotechEvent) : ℚ :=
  let base := CATALYST_PRIORITY event.event_type
  let stage_mult : ℚ :=
    match event.pipeline_stage with
    | some st =>
      if st ≠ "" ∧ event.event_type ∈ binary_event_types then
        dictGet PIPELINE_STAGE_WEIGHT st (70/100)
      else 1
    | none => 1
  let raw := base * stage_mult
  let raw :=
    match event.primary_endpoint with
    | some ep => if 10 < ep.length then min (raw + 5) 100 else raw
    | none => raw
  let sentiment_adj : ℚ :=
    match event.sentiment with
    | .strong_buy => 8
    | .buy => 4
    | .neutral => 0
    | .sell => -4
    | .strong_sell => -8
  let raw := raw + sentiment_adj
  pyRound 2 (min (max raw 0) 100)

/-- `competitive_moat_score` from collectors/catalyst_tracker.py: step
function of the competing-drug count. -/
def competitive_moat_score (event : BiotechEvent) : ℚ :=
  let n := event.competing_drugs.length
  if n = 0 then 85
  else if n = 1 then 70
  else if n ≤ 3 then 55
  else if n ≤ 6 then 35
  else 20

/-- `resolve_event` from collectors/catalyst_tracker.py.  The market-data
fetch is passed in as its result: `Except.error` embeds a raised exception,
which the code catches, leaving the move fields untouched. -/
def resolve_event (event : BiotechEvent) (outcome : EventOutcome)
    (outcome_notes : String) (auto_fetch_moves : Bool)
    (fetch_result : Except Unit (Option ℚ × Option ℚ × Option ℚ)) :
    BiotechEvent :=
  let e := { event with outcome := outcome, outcome_notes := outcome_notes }
  if auto_fetch_moves then
    match fetch_result with
    | .ok (t_move, spy_move, xbi_move) =>
      { e with actual_move_pct := t_move, spy_move_pct := spy_move,
               xbi_move_pct := xbi_move }
    | .error _ => e
  else e

-- ---------------------------------------------------------------------------
-- engine/scorer.py
-- ---------------------------------------------------------------------------

/-- `_iv_environment_score` from engine/scorer.py. -/
def _iv_environment_score (event : BiotechEvent) (iv_rank : Option ℚ) : ℚ :=
  match iv_rank with
  | some r =>
    if 40 ≤ r ∧ r ≤ 70 then 80
    else if 20 ≤ r ∧ r < 40 then 65
    else if 70 < r then 55
    else 40
  | none =>
    if event.event_type ∈ binary_event_types then 62
    else if event.event_type = .earnings then 68
    else if event.event_type = .macro_release then 55
    else 60

/-- `_market_context_score` from engine/scorer.py.  Python truthiness:
`ctx.sector_trend or "neutral"` treats both `None` and `""` as missing. -/
def _market_context_score (event : BiotechEvent) : ℚ :=
  match event.market_context with
  | none => 50
  | some ctx =>
    let trend := match ctx.sector_trend with
      | some s => if s = "" then "neutral" else s
      | none => "neutral"
    let base : ℚ :=
      if trend = "strong_risk_on" then 85
      else if trend = "risk_on" then 70
      else if trend = "neutral" then 50
      else if trend = "risk_off" then 30
      else if trend = "strong_risk_off" then 15
      else 50
    if event.event_type ∈ binary_event_types then
      match ctx.xbi_5d_return with
      | some x =>
        if 3 < x then min (base + 10) 100
        else if x < -3 then max (base - 10) 0
        else base
      | none => base
    else base

/-- `_sentiment_alignment_score` from engine/scorer.py (the lookup is total
over the enum, so the `.get` default of 50 is unreachable). -/
def _sentiment_alignment_score (event : BiotechEvent) : ℚ :=
  match event.sentiment with
  | .strong_buy => 90
  | .buy => 72
  | .neutral => 50
  | .sell => 28
  | .strong_sell => 10

/-- `_historical_accuracy_score` from engine/scorer.py.  Python truthiness:
`if not past_events` is true for both `None` and the empty list. -/
def _historical_accuracy_score (event : BiotechEvent)
    (past_events : Option (List BiotechEvent)) : ℚ :=
  let pe := past_events.getD []
  if pe.isEmpty then 50
  else
    let same_type := pe.filter (fun e =>
      decide (e.ticker = event.ticker ∧ e.event_type = event.event_type ∧
              e.outcome ≠ .pending))
    if same_type.isEmpty then 50
    else
      let positives := (same_type.filter (fun e =>
        decide (e.outcome = .positive ∨ e.outcome = .mixed))).length
      pyRound 2 ((positives / same_type.length : ℚ) * 100)

/-- `_risk_reward_score` from engine/scorer.py: expected-move proxy by event
type (all ten types present in the dict, so the default 30 is unreachable). -/
def _risk_reward_score (event : BiotechEvent) : ℚ :=
  match event.event_type with
  | .fda_pdufa => 85
  | .fda_adcom => 75
  | .clinical_readout => 70
  | .partnership => 50
  | .earnings => 45
  | .competitor_event => 35
  | .macro_release => 30
  | .conference_pres => 25
  | .sec_filing => 15
  | .other => 20

/-- `recommend_strategy` from engine/scorer.py: decision table keyed by
event type and the sentiment-alignment sub-score. -/
def recommend_strategy (event : BiotechEvent) (sentiment_score : ℚ) :
    OptionsStrategy :=
  if event.event_type ∈ binary_event_types then
    if 70 ≤ sentiment_score then .bull_call_spread
    else if sentiment_score ≤ 30 then .bear_put_spread
    else .long_straddle
  else if event.event_type = .earnings then
    if 70 ≤ sentiment_score then .bull_call_spread
    else if sentiment_score ≤ 30 then .bear_put_spread
    else .iron_condor
  else if event.event_type = .macro_release then .calendar_spread
  else if event.event_type = .partnership then
    if 65 ≤ sentiment_score then .long_call
    else .bull_call_spread
  else .long_straddle

/-- `score_event` from engine/scorer.py.  `date.today()` is passed in
explicitly as `today`; the `ValueError` raised on a missing `event_id` is
embedded as `Except.error`. -/
def score_event (event : BiotechEvent) (iv_rank : Option ℚ)
    (past_events : Option (List BiotechEvent))
    (custom_weights : Option WeightDict) (confidence_override : Option ℚ)
    (today : Date) : Except String OptionsRating :=
  match event.event_id with
  | none => .error "event.event_id must be set before scoring."
  | some eid =>
    let cq := catalyst_quality_score event
    let sa := _sentiment_alignment_score event
    let mc := _market_context_score event
    let iv := _iv_environment_score event iv_rank
    let ha := _historical_accuracy_score event past_events
    let cm := competitive_moat_score event
    let rr := _risk_reward_score event
    let breakdown : ScoreBreakdown :=
      { catalyst_quality := cq, sentiment_alignment := sa,
        market_context := mc, iv_environment := iv,
        historical_accuracy := ha, competitive_moat := cm,
        risk_reward := rr }
    let composite := breakdown.weighted_total custom_weights
    let grade := score_to_grade composite
    let strategy := recommend_strategy event sa
    let confidence := match confidence_override with
      | some c => c
      | none => pyRound 2 ((cq + ha) / 2)
    let dte : ℤ := if event.event_type ∈ binary_event_types then 35 else 21
    let delta : ℚ :=
      if strategy ∈ [OptionsStrategy.long_straddle, .long_strangle,
                     .iron_condor] then 35/100
      else if strategy ∈ [OptionsStrategy.bull_call_spread, .long_call] then
        45/100
      else if strategy ∈ [OptionsStrategy.bear_put_spread, .long_put] then
        -(45/100)
      else 40/100
    let grade_risk : RatingGrade → ℚ := fun g =>
      match g with
      | .A_PLUS => 3
      | .A => 25/10
      | .B_PLUS => 2
      | .B => 15/10
      | .C => 1
      | .D => 5/10
      | .F => 0
    let max_risk := grade_risk grade
    let stage_str := match event.pipeline_stage with
      | some s => if s = "" then "N/A" else s
      | none => "N/A"
    let rating := OptionsRating.post_init
      { event_id := eid, ticker := event.ticker, rating_date := today,
        recommended_strategy := strategy, score_breakdown := breakdown,
        confidence_pct := confidence, target_expiry_days := some dte,
        suggested_delta := some |delta|, max_risk_pct_port := some max_risk,
        notes := "Auto-scored: " ++ event.event_type.value ++ " | " ++
                 stage_str ++ " | sentiment=" ++ event.sentiment.value }
    .ok rating

-- ---------------------------------------------------------------------------
-- engine/comparator.py
-- ---------------------------------------------------------------------------

/-- `ReturnComparison` dataclass from engine/comparator.py. -/
structure ReturnComparison where
  event_id        : String
  ticker          : String
  event_type      : String
  outcome         : String
  actual_move_pct : Option ℚ
  spy_move_pct    : Option ℚ
  xbi_move_pct    : Option ℚ
  relative_to_spy : Option ℚ
  relative_to_xbi : Option ℚ
  iv_crush_pct    : Option ℚ
  rating_grade    : Option RatingGrade
  rating_score    : Option ℚ
deriving DecidableEq

/-- `ReturnComparison.outperformed_market`: `None` when the alpha is
unknown, else whether it is strictly positive. -/
def ReturnComparison.outperformed_market (c : ReturnComparison) :
    Option Bool :=
  match c.relative_to_spy with
  | none => none
  | some x => some (decide (0 < x))

/-- `ReturnComparison.outperformed_sector`. -/
def ReturnComparison.outperformed_sector (c : ReturnComparison) :
    Option Bool :=
  match c.relative_to_xbi with
  | none => none
  | some x => some (decide (0 < x))

/-- `build_comparison` from engine/comparator.py. -/
def build_comparison (event : BiotechEvent) (rating : Option OptionsRating) :
    ReturnComparison :=
  { event_id        := event.event_id.getD ""
    ticker          := event.ticker
    event_type      := event.event_type.value
    outcome         := match event.outcome with
                       | .pending => "pending"
                       | .positive => "positive"
                       | .negative => "negative"
                       | .mixed => "mixed"
                       | .withdrawn => "withdrawn"
    actual_move_pct := event.actual_move_pct
    spy_move_pct    := event.spy_move_pct
    xbi_move_pct    := event.xbi_move_pct
    relative_to_spy := event.relative_move
    relative_to_xbi := event.xbi_relative_move
    iv_crush_pct    := event.iv_crush_pct
    rating_grade    := rating.map (·.grade)
    rating_score    := rating.map (·.composite_score) }

/-- `batch_compare` from engine/comparator.py: filter to resolved events
with a known actual move, then build one comparison each. -/
def batch_compare (events : List BiotechEvent)
    (ratings : List (String × OptionsRating)) : List ReturnComparison :=
  let resolved := events.filter (fun e =>
    decide (e.outcome ≠ .pending ∧ e.actual_move_pct ≠ none))
  resolved.map (fun e =>
    build_comparison e
      ((ratings.find? (fun p => decide (p.1 = e.event_id.getD ""))).map
        Prod.snd))

/-- `BenchmarkStats` dataclass from engine/comparator.py. -/
structure BenchmarkStats where
  n_events              : ℕ
  avg_actual_move       : Option ℚ
  avg_spy_move          : Option ℚ
  avg_xbi_move          : Option ℚ
  avg_alpha_vs_spy      : Option ℚ
  avg_alpha_vs_xbi      : Option ℚ
  pct_outperform_spy    : Option ℚ
  pct_outperform_xbi    : Option ℚ
  avg_iv_crush          : Option ℚ
  positive_outcome_rate : Option ℚ
deriving DecidableEq

/-- `_safe_avg` from engine/comparator.py: mean of the non-`None` values,
rounded to 4 decimals; `None` when no value is present. -/
def _safe_avg (values : List (Option ℚ)) : Option ℚ :=
  let filtered := values.filterMap id
  if filtered.isEmpty then none
  else some (pyRound 4 (filtered.sum / filtered.length))

/-- `compute_stats` from engine/comparator.py.  Python truthiness:
`if events_for_outcome` skips both `None` and the empty list. -/
def compute_stats (comparisons : List ReturnComparison)
    (events_for_outcome : Option (List BiotechEvent)) : BenchmarkStats :=
  let n := comparisons.length
  if n = 0 then
    { n_events := 0
      avg_actual_move := none, avg_spy_move := none, avg_xbi_move := none
      avg_alpha_vs_spy := none, avg_alpha_vs_xbi := none
      pct_outperform_spy := none, pct_outperform_xbi := none
      avg_iv_crush := none, positive_outcome_rate := none }
  else
    let outperform_spy := comparisons.filter
      (fun c => c.outperformed_market == some true)
    let outperform_xbi := comparisons.filter
      (fun c => c.outperformed_sector == some true)
    let positive_rate : Option ℚ :=
      match events_for_outcome with
      | none => none
      | some evs =>
        if evs.isEmpty then none
        else
          let positives := evs.filter (fun e =>
            decide (e.outcome = .positive ∨ e.outcome = .mixed))
          some (pyRound 2 ((positives.length / evs.length : ℚ) * 100))
    { n_events := n
      avg_actual_move  := _safe_avg (comparisons.map (·.actual_move_pct))
      avg_spy_move     := _safe_avg (comparisons.map (·.spy_move_pct))
      avg_xbi_move     := _safe_avg (comparisons.map (·.xbi_move_pct))
      avg_alpha_vs_spy := _safe_avg (comparisons.map (·.relative_to_spy))
      avg_alpha_vs_xbi := _safe_avg (comparisons.map (·.relative_to_xbi))
      pct_outperform_spy :=
        some (pyRound 2 ((outperform_spy.length / n : ℚ) * 100))
      pct_outperform_xbi :=
        some (pyRound 2 ((outperform_xbi.length / n : ℚ) * 100))
      avg_iv_crush := _safe_avg (comparisons.map (·.iv_crush_pct))
      positive_outcome_rate := positive_rate }

-- ---------------------------------------------------------------------------
-- storage/event_store.py
-- ---------------------------------------------------------------------------

/-- The persisted JSON record of a `BiotechEvent`, one field per key written
by `_event_to_dict`.  Enum members stand for their `.value` strings and a
`Date` for its ISO string (both encodings are injective with total inverses
on their images).  `relative_move` / `xbi_relative_move` are derived fields
written by `to_dict` and ignored on decode. -/
structure EventRecord where
  event_id          : Option String
  ticker            : String
  company_name      : String
  event_type        : EventType
  event_date        : Date
  description       : String
  sentiment         : SentimentTag
  analyst_notes     : String
  pipeline_stage    : Option String
  indication        : Option String
  primary_endpoint  : Option String
  competing_drugs   : List String
  outcome           : EventOutcome
  actual_move_pct   : Option ℚ
  spy_move_pct      : Option ℚ
  xbi_move_pct      : Option ℚ
  iv_crush_pct      : Option ℚ
  relative_move     : Option ℚ
  xbi_relative_move : Option ℚ
  outcome_notes     : String
  tags              : List String
  market_context    : Option MarketContext
deriving DecidableEq

/-- `_event_to_dict` from storage/event_store.py (which is
`BiotechEvent.to_dict` plus the explicit `market_context` sub-dict). -/
def _event_to_dict (event : BiotechEvent) : EventRecord :=
  { event_id          := event.event_id
    ticker            := event.ticker
    company_name      := event.company_name
    event_type        := event.event_type
    event_date        := event.event_date
    description       := event.description
    sentiment         := event.sentiment
    analyst_notes     := event.analyst_notes
    pipeline_stage    := event.pipeline_stage
    indication        := event.indication
    primary_endpoint  := event.primary_endpoint
    competing_drugs   := event.competing_drugs
    outcome           := event.outcome
    actual_move_pct   := event.actual_move_pct
    spy_move_pct      := event.spy_move_pct
    xbi_move_pct      := event.xbi_move_pct
    iv_crush_pct      := event.iv_crush_pct
    relative_move     := event.relative_move
    xbi_relative_move := event.xbi_relative_move
    outcome_notes     := event.outcome_notes
    tags              := event.tags
    market_context    := event.market_context }

/-- `_dict_to_event` from storage/event_store.py.  (`if mc_data:` in Python
tests dict truthiness; an encoded context sub-dict always carries its five
keys, so on records this is exactly presence of the sub-dict.) -/
def _dict_to_event (d : EventRecord) : BiotechEvent :=
  let market_ctx : Option MarketContext :=
    match d.market_context with
    | some mc => some
      { spy_5d_return := mc.spy_5d_return, xbi_5d_return := mc.xbi_5d_return,
        vix_level := mc.vix_level, sector_trend := mc.sector_trend,
        notes := mc.notes }
    | none => none
  { event_id         := d.event_id
    ticker           := d.ticker
    company_name     := d.company_name
    event_type       := d.event_type
    event_date       := d.event_date
    description      := d.description
    sentiment        := d.sentiment
    analyst_notes    := d.analyst_notes
    pipeline_stage   := d.pipeline_stage
    indication       := d.indication
    primary_endpoint := d.primary_endpoint
    competing_drugs  := d.competing_drugs
    market_context   := market_ctx
    outcome          := d.outcome
    actual_move_pct  := d.actual_move_pct
    spy_move_pct     := d.spy_move_pct
    xbi_move_pct     := d.xbi_move_pct
    iv_crush_pct     := d.iv_crush_pct
    outcome_notes    := d.outcome_notes
    tags             := d.tags }

/-- The persisted JSON record of an `OptionsRating`, one field per key
written by `OptionsRating.to_dict`. -/
structure RatingRecord where
  event_id             : String
  ticker               : String
  rating_date          : Date
  recommended_strategy : OptionsStrategy
  composite_score      : ℚ
  grade                : RatingGrade
  confidence_pct       : ℚ
  target_expiry_days   : Option ℤ
  suggested_delta      : Option ℚ
  max_risk_pct_port    : Option ℚ
  score_breakdown      : ScoreBreakdown
  analyst_flags        : List String
  notes                : String
deriving DecidableEq

/-- `_rating_to_dict` from storage/event_store.py (`OptionsRating.to_dict`). -/
def _rating_to_dict (rating : OptionsRating) : RatingRecord :=
  { event_id             := rating.event_id
    ticker               := rating.ticker
    rating_date          := rating.rating_date
    recommended_strategy := rating.recommended_strategy
    composite_score      := rating.composite_score
    grade                := rating.grade
    confidence_pct       := rating.confidence_pct
    target_expiry_days   := rating.target_expiry_days
    suggested_delta      := rating.suggested_delta
    max_risk_pct_port    := rating.max_risk_pct_port
    score_breakdown      := rating.score_breakdown
    analyst_flags        := rating.analyst_flags
    notes                := rating.notes }

/-- `_dict_to_rating` from storage/event_store.py: the stored
`composite_score` and `grade` keys are never read — the dataclass
constructor (`post_init`) recomputes both from the decoded breakdown. -/
def _dict_to_rating (d : RatingRecord) : OptionsRating :=
  OptionsRating.post_init
    { event_id             := d.event_id
      ticker               := d.ticker
      rating_date          := d.rating_date
      recommended_strategy := d.recommended_strategy
      score_breakdown      := d.score_breakdown
      confidence_pct       := d.confidence_pct
      target_expiry_days   := d.target_expiry_days
      suggested_delta      := d.suggested_delta
      max_risk_pct_port    := d.max_risk_pct_port
      notes                := d.notes
      analyst_flags        := d.analyst_flags }

namespace EventStore

/-- `EventStore.load_events`: a missing backing file (and, in the source, a
file that fails to decode) degrades to the empty collection. -/
def load_events (file : Option (List EventRecord)) : List BiotechEvent :=
  match file with
  | none => []
  | some recs => recs.map _dict_to_event

/-- `EventStore.save_events`: overwrite the backing file with the encoded
collection. -/
def save_events (events : List BiotechEvent) : Option (List EventRecord) :=
  some (events.map _event_to_dict)

/-- `EventStore.save_event`: load the full collection, replace the first
entry whose `event_id` matches, else append, and persist. -/
def save_event (file : Option (List EventRecord)) (event : BiotechEvent) :
    Option (List EventRecord) :=
  let events := load_events file
  let events' :=
    match events.findIdx? (fun e => decide (e.event_id = event.event_id)) with
    | some idx => events.set idx event
    | none => events ++ [event]
  save_events events'

/-- `EventStore.get_event`: first stored event with the given id, else
`None`. -/
def get_event (file : Option (List EventRecord)) (event_id : String) :
    Option BiotechEvent :=
  (load_events file).find? (fun e => decide (e.event_id = some event_id))

/-- `EventStore.delete_event`: remove by id; also report whether a removal
occurred (the new file is unchanged when nothing matched). -/
def delete_event (file : Option (List EventRecord)) (event_id : String) :
    Option (List EventRecord) × Bool :=
  let events := load_events file
  let new_events := events.filter (fun e => decide (e.event_id ≠ some event_id))
  if new_events.length = events.length then (file, false)
  else (save_events new_events, true)

/-- `EventStore.load_ratings`. -/
def load_ratings (file : Option (List RatingRecord)) : List OptionsRating :=
  match file with
  | none => []
  | some recs => recs.map _dict_to_rating

/-- `EventStore.save_ratings`. -/
def save_ratings (ratings : List OptionsRating) : Option (List RatingRecord) :=
  some (ratings.map _rating_to_dict)

/-- `EventStore.save_rating`: keyed upsert by `event_id`. -/
def save_rating (file : Option (List RatingRecord)) (rating : OptionsRating) :
    Option (List RatingRecord) :=
  let ratings := load_ratings file
  let ratings' :=
    match ratings.findIdx? (fun r => decide (r.event_id = rating.event_id)) with
    | some idx => ratings.set idx rating
    | none => ratings ++ [rating]
  save_ratings ratings'

end EventStore

-- ---------------------------------------------------------------------------
-- Helper lemmas: rounding bounds
-- ---------------------------------------------------------------------------

lemma floor_le_pyRoundInt (x : ℚ) : ⌊x⌋ ≤ pyRoundInt x := by
  unfold pyRoundInt
  dsimp only
  split_ifs <;> omega

lemma pyRoundInt_le_ceil (x : ℚ) : pyRoundInt x ≤ ⌈x⌉ := by
  have hfc : ⌊x⌋ ≤ ⌈x⌉ := Int.floor_le_ceil x
  have hlt : ∀ _ : (1:ℚ)/2 ≤ x - ⌊x⌋, ⌊x⌋ + 1 ≤ ⌈x⌉ := by
    intro h
    have : (⌊x⌋ : ℚ) < x := by
      have := Int.floor_le x
      nlinarith
    exact Int.lt_ceil.mpr this
  unfold pyRoundInt
  dsimp only
  split_ifs with h1 h2
  · exact hfc
  · exact hlt (by linarith)
  · exact hfc
  · exact hlt (by linarith)

lemma pyRound_nonneg (n : ℕ) (x : ℚ) (h : 0 ≤ x) : 0 ≤ pyRound n x := by
  unfold pyRound
  have h10 : (0:ℚ) < 10 ^ n := by positivity
  apply div_nonneg _ (le_of_lt h10)
  have hx : (0:ℚ) ≤ x * 10 ^ n := by positivity
  have hf : (0:ℤ) ≤ ⌊x * 10 ^ n⌋ := Int.le_floor.mpr (by exact_mod_cast hx)
  exact_mod_cast le_trans hf (floor_le_pyRoundInt _)

lemma pyRound_le (n : ℕ) (x : ℚ) (k : ℤ) (h : x ≤ k) : pyRound n x ≤ k := by
  unfold pyRound
  have h10 : (0:ℚ) < 10 ^ n := by positivity
  rw [div_le_iff₀ h10]
  have hx : x * 10 ^ n ≤ ((k * 10 ^ n : ℤ) : ℚ) := by
    push_cast
    have := mul_le_mul_of_nonneg_right h (le_of_lt h10)
    linarith
  have hc : ⌈x * 10 ^ n⌉ ≤ k * 10 ^ n := Int.ceil_le.mpr hx
  have := le_trans (pyRoundInt_le_ceil (x * 10 ^ n)) hc
  calc ((pyRoundInt (x * 10 ^ n) : ℚ)) ≤ ((k * 10 ^ n : ℤ) : ℚ) := by exact_mod_cast this
    _ = k * 10 ^ n := by push_cast; ring

-- ---------------------------------------------------------------------------
-- Helper lemmas: the load-modify-save keyed upsert
-- ---------------------------------------------------------------------------

/-- The replace-first-match-or-append pattern shared by `save_event` and
`save_rating`, in directly recursive form. -/
def upsertFirst {α : Type} (p : α → Bool) (a : α) : List α → List α
  | [] => [a]
  | x :: xs => if p x then a :: xs else x :: upsertFirst p a xs

lemma findIdx_set_eq_upsertFirst {α : Type} (p : α → Bool) (a : α)
    (l : List α) :
    (match l.findIdx? p with
     | some i => l.set i a
     | none => l ++ [a]) = upsertFirst p a l := by
  induction l with
  | nil => simp [upsertFirst, List.findIdx?]
  | cons x xs ih =>
    rw [List.findIdx?_cons, List.findIdx?_succ]
    by_cases hx : p x
    · simp [hx, upsertFirst]
    · simp only [hx, if_false, upsertFirst, Bool.false_eq_true]
      cases h : xs.findIdx? p with
      | none => simp [h] at ih ⊢; exact ih
      | some i => simp [h] at ih ⊢; exact ih

lemma upsertFirst_filter_length {α : Type} (p : α → Bool) (a : α)
    (ha : p a = true) (l : List α) (h : (l.filter p).length ≤ 1) :
    ((upsertFirst p a l).filter p).length ≤ 1 := by
  induction l with
  | nil => simp [upsertFirst, ha]
  | cons x xs ih =>
    by_cases hx : p x
    · simp only [upsertFirst, hx, if_true]
      simp only [List.filter_cons, hx, if_true, ha, List.length_cons] at h ⊢
      exact h
    · simp only [upsertFirst, hx, Bool.false_eq_true, if_false]
      simp only [List.filter_cons, hx, Bool.false_eq_true, if_false] at h ⊢
      exact ih h

lemma upsertFirst_upsertFirst {α : Type} (p : α → Bool) (a b : α)
    (hb : p b = true) (l : List α) :
    upsertFirst p a (upsertFirst p b l) = upsertFirst p a l := by
  induction l with
  | nil => simp [upsertFirst, hb]
  | cons x xs ih =>
    by_cases hx : p x
    · simp [upsertFirst, hx, hb]
    · simp [upsertFirst, hx, ih]

lemma upsertFirst_find? {α : Type} (p : α → Bool) (a : α) (ha : p a = true)
    (l : List α) : (upsertFirst p a l).find? p = some a := by
  induction l with
  | nil => simp [upsertFirst, List.find?, ha]
  | cons x xs ih =>
    by_cases hx : p x
    · simp [upsertFirst, hx, List.find?, ha]
    · simp [upsertFirst, hx, List.find?_cons, ih]

lemma map_upsertFirst {α β : Type} (p : α → Bool) (q : β → Bool)
    (g : α → β) (hpq : ∀ x, q (g x) = p x) (a : α) (l : List α) :
    (upsertFirst p a l).map g = upsertFirst q (g a) (l.map g) := by
  induction l with
  | nil => simp [upsertFirst]
  | cons x xs ih =>
    by_cases hx : p x
    · simp [upsertFirst, hx, hpq]
    · simp [upsertFirst, hx, hpq, ih]

-- ---------------------------------------------------------------------------
-- Helper lemmas: encode/decode round-trips
-- ---------------------------------------------------------------------------

lemma dict_to_event_event_to_dict (e : BiotechEvent) :
    _dict_to_event (_event_to_dict e) = e := by
  cases e with
  | mk ticker company_name event_type event_date description sentiment
      analyst_notes pipeline_stage indication primary_endpoint competing_drugs
      market_context outcome actual_move_pct spy_move_pct xbi_move_pct
      iv_crush_pct outcome_notes event_id tags =>
    cases market_context <;> rfl

lemma dict_to_rating_rating_to_dict (r : OptionsRating) :
    _dict_to_rating (_rating_to_dict r) = r.post_init := by
  cases r; rfl

lemma post_init_post_init (r : OptionsRating) :
    (r.post_init).post_init = r.post_init := by
  cases r; rfl

lemma post_init_event_id (r : OptionsRating) :
    (r.post_init).event_id = r.event_id := rfl

lemma event_to_dict_event_id (e : BiotechEvent) :
    (_event_to_dict e).event_id = e.event_id := rfl

lemma rating_to_dict_event_id (r : OptionsRating) :
    (_rating_to_dict r).event_id = r.event_id := rfl

lemma dict_to_rating_event_id (d : RatingRecord) :
    (_dict_to_rating d).event_id = d.event_id := rfl

lemma post_init_fixed_of_decoded (d : RatingRecord) :
    (_dict_to_rating d).post_init = _dict_to_rating d := by
  cases d; exact post_init_post_init _

-- ---------------------------------------------------------------------------
-- Helper lemmas: store-level reformulation of the two upserts
-- ---------------------------------------------------------------------------

/-- Number of records in the events file whose key equals `k`. -/
def eventKeyCount (file : Option (List EventRecord)) (k : Option String) : ℕ :=
  ((file.getD []).filter (fun d => decide (d.event_id = k))).length

/-- Number of records in the ratings file whose key equals `k`. -/
def ratingKeyCount (file : Option (List RatingRecord)) (k : String) : ℕ :=
  ((file.getD []).filter (fun d => decide (d.event_id = k))).length

lemma save_event_eq (f : Option (List EventRecord)) (e : BiotechEvent) :
    EventStore.save_event f e =
      some ((upsertFirst (fun x => decide (x.event_id = e.event_id)) e
        (EventStore.load_events f)).map _event_to_dict) := by
  unfold EventStore.save_event EventStore.save_events
  dsimp only
  rw [findIdx_set_eq_upsertFirst]

lemma save_rating_eq (g : Option (List RatingRecord)) (r : OptionsRating) :
    EventStore.save_rating g r =
      some ((upsertFirst (fun x => decide (x.event_id = r.event_id)) r
        (EventStore.load_ratings g)).map _rating_to_dict) := by
  unfold EventStore.save_rating EventStore.save_ratings
  dsimp only
  rw [findIdx_set_eq_upsertFirst]

lemma load_events_filter (f : Option (List EventRecord)) (k : Option String) :
    ((EventStore.load_events f).filter
      (fun x => decide (x.event_id = k))).length = eventKeyCount f k := by
  cases f with
  | none => rfl
  | some recs =>
    unfold EventStore.load_events eventKeyCount
    rw [List.filter_map, List.length_map]
    rfl

lemma load_ratings_filter (g : Option (List RatingRecord)) (k : String) :
    ((EventStore.load_ratings g).filter
      (fun x => decide (x.event_id = k))).length = ratingKeyCount g k := by
  cases g with
  | none => rfl
  | some recs =>
    unfold EventStore.load_ratings ratingKeyCount
    rw [List.filter_map, List.length_map]
    rfl

lemma load_events_some (recs : List EventRecord) :
    EventStore.load_events (some recs) = recs.map _dict_to_event := rfl

lemma load_ratings_some (recs : List RatingRecord) :
    EventStore.load_ratings (some recs) = recs.map _dict_to_rating := rfl

lemma load_save_event (f : Option (List EventRecord)) (e : BiotechEvent) :
    EventStore.load_events (EventStore.save_event f e) =
      upsertFirst (fun x => decide (x.event_id = e.event_id)) e
        (EventStore.load_events f) := by
  have hcomp : (_dict_to_event ∘ _event_to_dict) = id := by
    funext x
    exact dict_to_event_event_to_dict x
  rw [save_event_eq, load_events_some, List.map_map, hcomp, List.map_id]

lemma map_post_init_load_ratings (g : Option (List RatingRecord)) :
    (EventStore.load_ratings g).map OptionsRating.post_init =
      EventStore.load_ratings g := by
  cases g with
  | none => rfl
  | some recs =>
    unfold EventStore.load_ratings
    rw [List.map_map]
    simp [Function.comp, post_init_fixed_of_decoded]

lemma load_save_rating (g : Option (List RatingRecord)) (r : OptionsRating) :
    EventStore.load_ratings (EventStore.save_rating g r) =
      upsertFirst (fun x => decide (x.event_id = r.event_id)) r.post_init
        (EventStore.load_ratings g) := by
  have hcomp : (_dict_to_rating ∘ _rating_to_dict) = OptionsRating.post_init := by
    funext x
    exact dict_to_rating_rating_to_dict x
  rw [save_rating_eq, load_ratings_some, List.map_map, hcomp]
  rw [map_upsertFirst (fun x => decide (x.event_id = r.event_id))
    (fun x => decide (x.event_id = r.event_id)) OptionsRating.post_init
    (fun x => by simp only [post_init_event_id]) r]
  rw [map_post_init_load_ratings]

-- ---------------------------------------------------------------------------
-- Claim theorems
-- ---------------------------------------------------------------------------

/-- C4: the grade mapping is total, exhaustive and non-overlapping on
[0,100]: every composite score maps to exactly one of A+/A/B+/B/C/D/F via
the thresholds ≥90, ≥80, ≥70, ≥60, ≥50, ≥30, else F, and each boundary
value (90, 80, 70, 60, 50, 30) maps to the higher band. -/
theorem C4_grade_bands (s : ℚ) (h0 : 0 ≤ s) (h100 : s ≤ 100) :
    (score_to_grade s = .A_PLUS ↔ 90 ≤ s) ∧
    (score_to_grade s = .A ↔ 80 ≤ s ∧ s < 90) ∧
    (score_to_grade s = .B_PLUS ↔ 70 ≤ s ∧ s < 80) ∧
    (score_to_grade s = .B ↔ 60 ≤ s ∧ s < 70) ∧
    (score_to_grade s = .C ↔ 50 ≤ s ∧ s < 60) ∧
    (score_to_grade s = .D ↔ 30 ≤ s ∧ s < 50) ∧
    (score_to_grade s = .F ↔ s < 30) := by
  unfold score_to_grade
  split_ifs with h1 h2 h3 h4 h5 h6 <;>
    refine ⟨?_, ?_, ?_, ?_, ?_, ?_, ?_⟩ <;>
    simp only [eq_self_iff_true, true_iff, reduceCtorEq, false_iff, not_and,
      not_lt, not_le, iff_true] <;>
    first
      | linarith
      | (intro h; linarith)
      | (exact ⟨by linarith, by linarith⟩)

/-- Witness for C4 at the boundary value 90, which maps to the higher
band A+. -/
theorem C4_grade_bands_witness :
    score_to_grade 90 = .A_PLUS ∧ score_to_grade (4575/100) = .D :=
  ⟨(C4_grade_bands 90 (by norm_num) (by norm_num)).1.mpr (by norm_num),
   ((C4_grade_bands (4575/100) (by norm_num) (by norm_num)).2.2.2.2.2.1).mpr
     (by norm_num)⟩

/-- C10: every `OptionsRating` immediately after construction — including
ratings decoded from storage — has `composite_score` equal to the
default-weight `weighted_total` of its breakdown and `grade` equal to
`score_to_grade` of that composite; the constructor (`__post_init__`)
ignores any caller-supplied `composite_score`/`grade`. -/
theorem C10_post_init_invariant (r : OptionsRating) (d : RatingRecord)
    (c : ℚ) (g : RatingGrade) :
    ({ r with composite_score := c, grade := g } : OptionsRating).post_init
        = r.post_init ∧
    (r.post_init).composite_score = r.score_breakdown.weighted_total none ∧
    (r.post_init).grade = score_to_grade ((r.post_init).composite_score) ∧
    (_dict_to_rating d).composite_score
        = (_dict_to_rating d).score_breakdown.weighted_total none ∧
    (_dict_to_rating d).grade
        = score_to_grade ((_dict_to_rating d).composite_score) := by
  refine ⟨by cases r; rfl, rfl, rfl, ?_, ?_⟩ <;> cases d <;> rfl

/-- C9: resolving a pending event with `auto_fetch_moves=true` against a
provider whose fetch raises returns without propagating the failure: the
outcome and notes are set as requested and the three move fields stay
`None`. -/
theorem C9_resolve_survives_fetch_failure (e : BiotechEvent)
    (outc : EventOutcome) (notes : String)
    (hp : e.outcome = .pending) (h1 : e.actual_move_pct = none)
    (h2 : e.spy_move_pct = none) (h3 : e.xbi_move_pct = none) :
    (resolve_event e outc notes true (.error ())).outcome = outc ∧
    (resolve_event e outc notes true (.error ())).outcome_notes = notes ∧
    (resolve_event e outc notes true (.error ())).actual_move_pct = none ∧
    (resolve_event e outc notes true (.error ())).spy_move_pct = none ∧
    (resolve_event e outc notes true (.error ())).xbi_move_pct = none := by
  simp [resolve_event, h1, h2, h3]

/-- Witness for C9 at a concrete pending event. -/
theorem C9_resolve_survives_fetch_failure_witness :
    (resolve_event
      { ticker := "ACME", company_name := "Acme Bio", event_type := .fda_pdufa,
        event_date := ⟨2026, 3, 1⟩, description := "PDUFA",
        event_id := some "ACME_1" }
      .positive "approved" true (.error ())).outcome = .positive ∧
    (resolve_event
      { ticker := "ACME", company_name := "Acme Bio", event_type := .fda_pdufa,
        event_date := ⟨2026, 3, 1⟩, description := "PDUFA",
        event_id := some "ACME_1" }
      .positive "approved" true (.error ())).actual_move_pct = none := by
  have h := C9_resolve_survives_fetch_failure
    { ticker := "ACME", company_name := "Acme Bio", event_type := .fda_pdufa,
      event_date := ⟨2026, 3, 1⟩, description := "PDUFA",
      event_id := some "ACME_1" }
    .positive "approved" rfl rfl rfl rfl
  exact ⟨h.1, h.2.2.1⟩

/-- C6: the recommended strategy is a deterministic function of event type
and the sentiment-alignment sub-score: binary types split at ≥70 / ≤30 into
bull call spread / bear put spread / long straddle; earnings the same with
iron condor on the neutral branch; macro releases always calendar spread;
partnership long call at ≥65 else bull call spread; every other type long
straddle. -/
theorem C6_strategy_table (e : BiotechEvent) (s : ℚ) :
    (e.event_type ∈ binary_event_types →
      (70 ≤ s → recommend_strategy e s = .bull_call_spread) ∧
      (s ≤ 30 → recommend_strategy e s = .bear_put_spread) ∧
      (30 < s → s < 70 → recommend_strategy e s = .long_straddle)) ∧
    (e.event_type = .earnings →
      (70 ≤ s → recommend_strategy e s = .bull_call_spread) ∧
      (s ≤ 30 → recommend_strategy e s = .bear_put_spread) ∧
      (30 < s → s < 70 → recommend_strategy e s = .iron_condor)) ∧
    (e.event_type = .macro_release →
      recommend_strategy e s = .calendar_spread) ∧
    (e.event_type = .partnership →
      (65 ≤ s → recommend_strategy e s = .long_call) ∧
      (s < 65 → recommend_strategy e s = .bull_call_spread)) ∧
    (e.event_type ∈ [EventType.conference_pres, .sec_filing,
                     .competitor_event, .other] →
      recommend_strategy e s = .long_straddle) := by
  refine ⟨?_, ?_, ?_, ?_, ?_⟩
  · intro hb
    refine ⟨fun h1 => ?_, fun h1 => ?_, fun h1 h2 => ?_⟩ <;>
      · simp only [recommend_strategy, if_pos hb]
        split_ifs <;> first | rfl | linarith
  · intro he
    have hb : e.event_type ∉ binary_event_types := by
      simp [binary_event_types, he]
    refine ⟨fun h1 => ?_, fun h1 => ?_, fun h1 h2 => ?_⟩ <;>
      · simp only [recommend_strategy, if_neg hb, if_pos he]
        split_ifs <;> first | rfl | linarith
  · intro he
    have hb : e.event_type ∉ binary_event_types := by
      simp [binary_event_types, he]
    have hearn : e.event_type ≠ .earnings := by simp [he]
    simp only [recommend_strategy, if_neg hb, if_neg hearn, if_pos he]
  · intro he
    have hb : e.event_type ∉ binary_event_types := by
      simp [binary_event_types, he]
    have hearn : e.event_type ≠ .earnings := by simp [he]
    have hmac : e.event_type ≠ .macro_release := by simp [he]
    refine ⟨fun h1 => ?_, fun h1 => ?_⟩ <;>
      · simp only [recommend_strategy, if_neg hb, if_neg hearn, if_neg hmac,
          if_pos he]
        split_ifs <;> first | rfl | linarith
  · intro ho
    simp only [List.mem_cons, List.not_mem_nil, or_false] at ho
    have hb : e.event_type ∉ binary_event_types := by
      rcases ho with h | h | h | h <;> simp_all [binary_event_types]
    have hearn : e.event_type ≠ .earnings := by
      rcases ho with h | h | h | h <;> simp_all
    have hmac : e.event_type ≠ .macro_release := by
      rcases ho with h | h | h | h <;> simp_all
    have hpart : e.event_type ≠ .partnership := by
      rcases ho with h | h | h | h <;> simp_all
    simp only [recommend_strategy, if_neg hb, if_neg hearn, if_neg hmac,
      if_neg hpart]

/-- Witness for C6 at a concrete macro-release event with neutral
sentiment. -/
theorem C6_strategy_table_witness :
    recommend_strategy
      { ticker := "SPY", company_name := "Macro", event_type := .macro_release,
        event_date := ⟨2026, 6, 1⟩, description := "CPI" } 50
      = .calendar_spread :=
  (C6_strategy_table
    { ticker := "SPY", company_name := "Macro", event_type := .macro_release,
      event_date := ⟨2026, 6, 1⟩, description := "CPI" } 50).2.2.1 rfl

/-- C8: for every weight mapping whose values sum to 1.0 and every
breakdown whose seven sub-scores each lie in [0,100], the composite
returned by `weighted_total` lies in [0,100]. -/
theorem C8_composite_clamped (bd : ScoreBreakdown) (w : WeightDict)
    (hsum : (w.map Prod.snd).sum = 1)
    (h1 : 0 ≤ bd.catalyst_quality ∧ bd.catalyst_quality ≤ 100)
    (h2 : 0 ≤ bd.sentiment_alignment ∧ bd.sentiment_alignment ≤ 100)
    (h3 : 0 ≤ bd.market_context ∧ bd.market_context ≤ 100)
    (h4 : 0 ≤ bd.iv_environment ∧ bd.iv_environment ≤ 100)
    (h5 : 0 ≤ bd.historical_accuracy ∧ bd.historical_accuracy ≤ 100)
    (h6 : 0 ≤ bd.competitive_moat ∧ bd.competitive_moat ≤ 100)
    (h7 : 0 ≤ bd.risk_reward ∧ bd.risk_reward ≤ 100) :
    0 ≤ bd.weighted_total (some w) ∧ bd.weighted_total (some w) ≤ 100 := by
  have key : ∀ t : ℚ, 0 ≤ pyRound 2 (min (max t 0) 100) ∧
      pyRound 2 (min (max t 0) 100) ≤ 100 := by
    intro t
    constructor
    · exact pyRound_nonneg 2 _ (le_min (le_max_right _ 0) (by norm_num))
    · have h := pyRound_le 2 (min (max t 0) 100) 100 (by
        exact_mod_cast min_le_right (max t 0) (100:ℚ))
      exact_mod_cast h
  unfold ScoreBreakdown.weighted_total
  exact key _

/-- Witness for C8 at the default weight dict (which sums to 1) and an
all-50 breakdown. -/
theorem C8_composite_clamped_witness :
    (default_weights.map Prod.snd).sum = 1 ∧
    0 ≤ (ScoreBreakdown.weighted_total ⟨50, 50, 50, 50, 50, 50, 50⟩
          (some default_weights)) ∧
    (ScoreBreakdown.weighted_total ⟨50, 50, 50, 50, 50, 50, 50⟩
          (some default_weights)) ≤ 100 := by
  have hs : (default_weights.map Prod.snd).sum = 1 := by
    simp [default_weights]
    norm_num
  refine ⟨hs, ?_⟩
  exact C8_composite_clamped ⟨50, 50, 50, 50, 50, 50, 50⟩ default_weights hs
    ⟨by norm_num, by norm_num⟩ ⟨by norm_num, by norm_num⟩
    ⟨by norm_num, by norm_num⟩ ⟨by norm_num, by norm_num⟩
    ⟨by norm_num, by norm_num⟩ ⟨by norm_num, by norm_num⟩
    ⟨by norm_num, by norm_num⟩

/-- C5: `score_event` fails with the invalid-input error exactly when
`event_id` is unset; with a set `event_id` and every optional input absent
it still returns a full `Rating`, whose breakdown carries the documented
neutral defaults (market context 50 with no context attached, history 50,
the per-type IV heuristic) and the auto-computed confidence. -/
theorem C5_score_event_total (e : BiotechEvent) (today : Date)
    (iv_rank : Option ℚ) (past : Option (List BiotechEvent))
    (w : Option WeightDict) (co : Option ℚ) :
    (score_event e iv_rank past w co today =
        .error "event.event_id must be set before scoring."
      ↔ e.event_id = none) ∧
    (∀ id, e.event_id = some id → e.market_context = none →
      ∃ r, score_event e none none none none today = .ok r ∧
        r.score_breakdown.market_context = 50 ∧
        r.score_breakdown.historical_accuracy = 50 ∧
        r.score_breakdown.iv_environment =
          (if e.event_type ∈ binary_event_types then 62
           else if e.event_type = .earnings then 68
           else if e.event_type = .macro_release then 55 else 60) ∧
        r.confidence_pct =
          pyRound 2 ((r.score_breakdown.catalyst_quality + 50) / 2)) := by
  constructor
  · cases he : e.event_id <;> simp [score_event, he]
  · intro id hid hmc
    rcases hr : score_event e none none none none today with msg | r
    · simp [score_event, hid] at hr
    · refine ⟨r, rfl, ?_, ?_, ?_, ?_⟩ <;>
        · simp only [score_event, hid] at hr
          rw [Except.ok.injEq] at hr
          subst hr
          simp [OptionsRating.post_init, _market_context_score, hmc,
            _historical_accuracy_score, _iv_environment_score]

/-- Witness for C5 at a concrete earnings event with a set id and no
optional data. -/
theorem C5_score_event_total_witness :
    ∃ r, score_event
        { ticker := "ACME", company_name := "Acme Bio",
          event_type := .earnings, event_date := ⟨2026, 2, 1⟩,
          description := "Q4", event_id := some "ACME_2" }
        none none none none ⟨2026, 1, 15⟩ = .ok r ∧
      r.score_breakdown.iv_environment = 68 := by
  obtain ⟨r, hok, _, _, hiv, _⟩ :=
    (C5_score_event_total
      { ticker := "ACME", company_name := "Acme Bio",
        event_type := .earnings, event_date := ⟨2026, 2, 1⟩,
        description := "Q4", event_id := some "ACME_2" }
      ⟨2026, 1, 15⟩ none none none none).2 "ACME_2" rfl rfl
  refine ⟨r, hok, ?_⟩
  rw [hiv]
  simp [binary_event_types]

/-- The concrete event exhibiting the C1 divergence: an `other`-type event
with all-default qualitative fields and a set id. -/
def c1Event : BiotechEvent :=
  { ticker := "XYZ", company_name := "Xyz Bio", event_type := .other,
    event_date := ⟨2026, 1, 1⟩, description := "misc",
    event_id := some "XYZ_1" }

/-- The custom weight dict exhibiting the C1 divergence: all weight on the
risk-reward sub-score. -/
def c1Weights : WeightDict := [("risk_reward", 1)]

/-- C1 (divergence witness): scoring `c1Event` with `c1Weights` yields a
breakdown whose dot-product with the supplied weights is 20.00 (grade F),
but the returned rating stores composite 45.75 and grade D — recomputed by
`__post_init__` under the default weights — while its
`max_risk_pct_port` of 0.0 was read off the custom-weighted grade F.  The
claimed equality between the stored composite and the supplied-weight
dot-product fails. -/
theorem C1_custom_weights_dropped :
    (score_event c1Event none none (some c1Weights) none
        ⟨2026, 1, 1⟩).toOption.map
      (fun r => (r.score_breakdown, r.composite_score, r.grade,
                 r.max_risk_pct_port)) =
      some (⟨25, 50, 50, 60, 50, 85, 20⟩, 4575/100, .D, some 0) ∧
    ScoreBreakdown.weighted_total ⟨25, 50, 50, 60, 50, 85, 20⟩
        (some c1Weights) = 20 ∧
    (4575/100 : ℚ) ≠ 20 := by
  refine ⟨?_, ?_, by norm_num⟩
  · simp [score_event, c1Event, c1Weights, OptionsRating.post_init,
      ScoreBreakdown.weighted_total, catalyst_quality_score,
      _sentiment_alignment_score, _market_context_score,
      _iv_environment_score, _historical_accuracy_score,
      competitive_moat_score, _risk_reward_score, CATALYST_PRIORITY,
      binary_event_types, dictGet, default_weights, recommend_strategy,
      score_to_grade, Except.toOption]
    norm_num [pyRound, pyRoundInt]
  · simp [ScoreBreakdown.weighted_total, c1Weights, dictGet]
    norm_num [pyRound, pyRoundInt]

lemma filter_enc_pred (l : List BiotechEvent) (k : Option String) :
    (l.map _event_to_dict).filter (fun d => decide (d.event_id = k)) =
      (l.filter (fun x => decide (x.event_id = k))).map _event_to_dict := by
  rw [List.filter_map]
  rfl

lemma filter_encR_pred (l : List OptionsRating) (k : String) :
    (l.map _rating_to_dict).filter (fun d => decide (d.event_id = k)) =
      (l.filter (fun x => decide (x.event_id = k))).map _rating_to_dict := by
  rw [List.filter_map]
  rfl

/-- C2: `save_event` is a keyed upsert: if the stored events collection had
at most one record with `e`'s key, it still has at most one after
`save_event e`, and saving the identical record a second time leaves the
file unchanged; the same law holds for `save_rating` keyed by `event_id`. -/
theorem C2_upsert_law (f : Option (List EventRecord)) (e : BiotechEvent)
    (hf : eventKeyCount f e.event_id ≤ 1)
    (g : Option (List RatingRecord)) (r : OptionsRating)
    (hg : ratingKeyCount g r.event_id ≤ 1) :
    eventKeyCount (EventStore.save_event f e) e.event_id ≤ 1 ∧
    EventStore.save_event (EventStore.save_event f e) e
      = EventStore.save_event f e ∧
    ratingKeyCount (EventStore.save_rating g r) r.event_id ≤ 1 ∧
    EventStore.save_rating (EventStore.save_rating g r) r
      = EventStore.save_rating g r := by
  refine ⟨?_, ?_, ?_, ?_⟩
  · rw [save_event_eq]
    unfold eventKeyCount
    simp only [Option.getD_some]
    rw [filter_enc_pred, List.length_map]
    apply upsertFirst_filter_length _ e (by simp)
    rw [load_events_filter]
    exact hf
  · rw [save_event_eq (EventStore.save_event f e) e, load_save_event,
      upsertFirst_upsertFirst _ _ _ (by simp), ← save_event_eq]
  · rw [save_rating_eq]
    unfold ratingKeyCount
    simp only [Option.getD_some]
    rw [filter_encR_pred, List.length_map]
    apply upsertFirst_filter_length _ r (by simp)
    rw [load_ratings_filter]
    exact hg
  · rw [save_rating_eq (EventStore.save_rating g r) r, load_save_rating,
      upsertFirst_upsertFirst _ _ _ (by simp [post_init_event_id]),
      ← save_rating_eq]

/-- Concrete event for the C2 witness. -/
def c2Event : BiotechEvent :=
  { ticker := "AAA", company_name := "Aaa Bio", event_type := .earnings,
    event_date := ⟨2026, 4, 1⟩, description := "q1",
    event_id := some "AAA_1" }

/-- Concrete rating for the C2 witness. -/
def c2Rating : OptionsRating :=
  { event_id := "AAA_1", ticker := "AAA", rating_date := ⟨2026, 4, 1⟩,
    recommended_strategy := .iron_condor, score_breakdown := {} }

/-- Witness for C2: both upsert laws at an initially missing file. -/
theorem C2_upsert_law_witness :
    eventKeyCount (EventStore.save_event none c2Event) c2Event.event_id ≤ 1 ∧
    EventStore.save_event (EventStore.save_event none c2Event) c2Event
      = EventStore.save_event none c2Event ∧
    ratingKeyCount (EventStore.save_rating none c2Rating)
      c2Rating.event_id ≤ 1 ∧
    EventStore.save_rating (EventStore.save_rating none c2Rating) c2Rating
      = EventStore.save_rating none c2Rating :=
  C2_upsert_law none c2Event (by simp [eventKeyCount]) none c2Rating
    (by simp [ratingKeyCount])

/-- The rating exhibiting the C3 divergence: constructed consistently, then
refreshed under a custom weight override (all weight on catalyst quality),
as `refresh_score` permits. -/
def c3Rating : OptionsRating :=
  (OptionsRating.post_init
    { event_id := "CCC_1", ticker := "CCC", rating_date := ⟨2026, 5, 1⟩,
      recommended_strategy := .custom,
      score_breakdown := { catalyst_quality := 100 } }).refresh_score
    (some [("catalyst_quality", 1)])

/-- C3 counterexample: the rating `c3Rating` stores composite 100 (its
breakdown dotted with the custom weights), but decoding its persisted
record recomputes the composite under the default weights, giving 25 — the
encode/decode pair is not lossless on `composite_score`/`grade`. -/
theorem C3_rating_roundtrip_counterexample :
    c3Rating.composite_score = 100 ∧
    (_dict_to_rating (_rating_to_dict c3Rating)).composite_score = 25 ∧
    _dict_to_rating (_rating_to_dict c3Rating) ≠ c3Rating := by
  have h1 : c3Rating.composite_score = 100 := by
    simp [c3Rating, OptionsRating.refresh_score, OptionsRating.post_init,
      ScoreBreakdown.weighted_total, dictGet]
    norm_num [pyRound, pyRoundInt]
  have h2 : (_dict_to_rating (_rating_to_dict c3Rating)).composite_score
      = 25 := by
    rw [dict_to_rating_rating_to_dict]
    simp [c3Rating, OptionsRating.refresh_score, OptionsRating.post_init,
      ScoreBreakdown.weighted_total, dictGet, default_weights]
    norm_num [pyRound, pyRoundInt]
  refine ⟨h1, h2, fun h => ?_⟩
  rw [h, h1] at h2
  norm_num at h2

/-- C3 amended: save-load-get round-trips every `BiotechEvent` exactly (all
fields, including `None` optionals and empty lists); an `OptionsRating`
round-trips exactly in every field provided its stored `composite_score`
and `grade` already equal the default-weight recomputation from its
breakdown (as they do for every freshly constructed or decoded rating) —
decode recomputes those two fields rather than reading them. -/
theorem C3_roundtrip_amended (f : Option (List EventRecord))
    (e : BiotechEvent) (id : String) (h : e.event_id = some id)
    (r : OptionsRating)
    (hc : r.composite_score = r.score_breakdown.weighted_total none)
    (hg : r.grade = score_to_grade r.composite_score) :
    _dict_to_event (_event_to_dict e) = e ∧
    EventStore.get_event (EventStore.save_event f e) id = some e ∧
    _dict_to_rating (_rating_to_dict r) = r := by
  refine ⟨dict_to_event_event_to_dict e, ?_, ?_⟩
  · unfold EventStore.get_event
    rw [load_save_event]
    have hp : (fun x : BiotechEvent => decide (x.event_id = some id)) =
        (fun x : BiotechEvent => decide (x.event_id = e.event_id)) := by
      simp [h]
    rw [hp]
    exact upsertFirst_find? _ e (by simp) _
  · rw [dict_to_rating_rating_to_dict]
    unfold OptionsRating.post_init
    dsimp only
    rw [← hc, ← hg]

/-- Concrete event for the C3 witness. -/
def c3wEvent : BiotechEvent :=
  { ticker := "DDD", company_name := "Ddd Bio", event_type := .partnership,
    event_date := ⟨2026, 7, 1⟩, description := "deal",
    event_id := some "DDD_1" }

/-- Concrete invariant-satisfying rating for the C3 witness. -/
def c3wRating : OptionsRating :=
  OptionsRating.post_init
    { event_id := "DDD_1", ticker := "DDD", rating_date := ⟨2026, 7, 1⟩,
      recommended_strategy := .long_call, score_breakdown := {} }

/-- Witness for C3's amended round-trip law at concrete records. -/
theorem C3_roundtrip_amended_witness :
    _dict_to_event (_event_to_dict c3wEvent) = c3wEvent ∧
    EventStore.get_event (EventStore.save_event none c3wEvent) "DDD_1"
      = some c3wEvent ∧
    _dict_to_rating (_rating_to_dict c3wRating) = c3wRating :=
  C3_roundtrip_amended none c3wEvent "DDD_1" rfl c3wRating rfl rfl

/-- The arithmetic mean of the known (non-`None`) values, `None` when every
value is unknown — the quantity C7 claims each average equals. -/
def meanOfKnown (values : List (Option ℚ)) : Option ℚ :=
  let known := values.filterMap id
  if known = [] then none else some (pyRound 4 (known.sum / known.length))

lemma safe_avg_eq_meanOfKnown (values : List (Option ℚ)) :
    _safe_avg values = meanOfKnown values := by
  unfold _safe_avg meanOfKnown
  dsimp only
  by_cases h : values.filterMap id = []
  · rw [if_pos h, if_pos (List.isEmpty_iff.mpr h)]
  · rw [if_neg h, if_neg (by simp [List.isEmpty_iff, h])]

lemma outperformed_market_pred (c : ReturnComparison) :
    (c.outperformed_market == some true) =
      (match c.relative_to_spy with
       | some x => decide (0 < x)
       | none => false) := by
  unfold ReturnComparison.outperformed_market
  cases c.relative_to_spy with
  | none => rfl
  | some x => cases h : decide (0 < x) <;> simp_all

lemma outperformed_sector_pred (c : ReturnComparison) :
    (c.outperformed_sector == some true) =
      (match c.relative_to_xbi with
       | some x => decide (0 < x)
       | none => false) := by
  unfold ReturnComparison.outperformed_sector
  cases c.relative_to_xbi with
  | none => rfl
  | some x => cases h : decide (0 < x) <;> simp_all

/-- C7: `compute_stats` on an empty comparison list returns `n_events = 0`
and every other field `None`; on a non-empty list each average is the
arithmetic mean of the non-`None` values of that field (all-`None` fields
stay `None`), the outperform percentages count comparisons with strictly
positive alpha, and the positive-outcome rate is taken over the separately
supplied full event set, independent of the comparison filter. -/
theorem C7_compute_stats (cs : List ReturnComparison)
    (evs? : Option (List BiotechEvent)) (hne : cs ≠ [])
    (evs : List BiotechEvent) :
    compute_stats [] evs? =
      ⟨0, none, none, none, none, none, none, none, none, none⟩ ∧
    (compute_stats cs evs?).n_events = cs.length ∧
    (compute_stats cs evs?).avg_actual_move
      = meanOfKnown (cs.map (·.actual_move_pct)) ∧
    (compute_stats cs evs?).avg_spy_move
      = meanOfKnown (cs.map (·.spy_move_pct)) ∧
    (compute_stats cs evs?).avg_xbi_move
      = meanOfKnown (cs.map (·.xbi_move_pct)) ∧
    (compute_stats cs evs?).avg_alpha_vs_spy
      = meanOfKnown (cs.map (·.relative_to_spy)) ∧
    (compute_stats cs evs?).avg_alpha_vs_xbi
      = meanOfKnown (cs.map (·.relative_to_xbi)) ∧
    (compute_stats cs evs?).avg_iv_crush
      = meanOfKnown (cs.map (·.iv_crush_pct)) ∧
    (compute_stats cs evs?).pct_outperform_spy
      = some (pyRound 2 ((((cs.filter fun c =>
          match c.relative_to_spy with
          | some x => decide (0 < x)
          | none => false).length : ℚ)) / cs.length * 100)) ∧
    (compute_stats cs evs?).pct_outperform_xbi
      = some (pyRound 2 ((((cs.filter fun c =>
          match c.relative_to_xbi with
          | some x => decide (0 < x)
          | none => false).length : ℚ)) / cs.length * 100)) ∧
    (evs? = none → (compute_stats cs evs?).positive_outcome_rate = none) ∧
    (evs? = some evs → evs ≠ [] →
      (compute_stats cs evs?).positive_outcome_rate
        = some (pyRound 2 ((((evs.filter fun ev =>
            decide (ev.outcome = .positive ∨ ev.outcome = .mixed)).length
            : ℚ)) / evs.length * 100))) := by
  have hn : cs.length ≠ 0 := by
    simpa [List.length_eq_zero] using hne
  refine ⟨rfl, ?_, ?_, ?_, ?_, ?_, ?_, ?_, ?_, ?_, ?_, ?_⟩ <;>
    unfold compute_stats <;> rw [if_neg hn] <;> dsimp only
  · exact safe_avg_eq_meanOfKnown _
  · exact safe_avg_eq_meanOfKnown _
  · exact safe_avg_eq_meanOfKnown _
  · exact safe_avg_eq_meanOfKnown _
  · exact safe_avg_eq_meanOfKnown _
  · exact safe_avg_eq_meanOfKnown _
  · rw [List.filter_congr (fun c _ => outperformed_market_pred c)]
  · rw [List.filter_congr (fun c _ => outperformed_sector_pred c)]
  · intro h
    rw [h]
  · intro h hevs
    rw [h]
    dsimp only
    rw [if_neg (by simp [List.isEmpty_iff, hevs])]

/-- Concrete comparison for the C7 witness. -/
def c7Comp : ReturnComparison :=
  { event_id := "E1", ticker := "TTT", event_type := "earnings",
    outcome := "positive", actual_move_pct := some 5, spy_move_pct := none,
    xbi_move_pct := none, relative_to_spy := none, relative_to_xbi := none,
    iv_crush_pct := none, rating_grade := none, rating_score := none }

/-- Concrete resolved event for the C7 witness. -/
def c7Event : BiotechEvent :=
  { ticker := "TTT", company_name := "Ttt Bio", event_type := .earnings,
    event_date := ⟨2026, 8, 1⟩, description := "q2", outcome := .positive,
    event_id := some "E1" }

/-- Witness for C7 at a singleton comparison list and event set. -/
theorem C7_compute_stats_witness :
    (compute_stats [c7Comp] (some [c7Event])).n_events = 1 := by
  have h := (C7_compute_stats [c7Comp] (some [c7Event]) (by simp)
    [c7Event]).2.1
  simpa using h

end BOR
